import Mathlib

/-!
Verification of the job-lifecycle coordinator of the scaperis-mcp repository.

The definitions below are a shallow embedding of the TypeScript sources:

* `ScraperAPI.scrape` (src/lib/scraper-api.ts): submit + poll loop, embedded as
  `pollStep` (one iteration of the poll loop body) and `runPolls` (the loop,
  driven by the finite script of remote poll responses), wrapped by `scrape`.
* `scrapeWithPrompt` (the standalone server variant): embedded as `swpStep`,
  `swpRun` and `scrapeWithPrompt`.
* the `CallToolRequestSchema` handler of `src/server/index.ts`: embedded as
  `handlerCore` (the body of the `try` block) and `handleCallTool` (the body
  together with its `catch`).

JavaScript truthiness of the optional string/object fields is made explicit
via `strTruthy` (a string is truthy iff present and non-empty) and
`Option.isSome` (an object is truthy iff present).  Remote I/O is modelled by
passing the submit response and the finite list of poll responses (the
"script") as arguments; progress notifications are collected in a trace.
-/

/-- A screenshot reference as delivered by the remote service: `{ url: string }`. -/
structure ScreenshotRef where
  url : String
deriving DecidableEq, Repr

/-- The `ScraperResponse` interface of src/types/index.ts, extended with the
`job_id` field that the submit endpoint may return (checked by
`if (!data.job_id)` in `ScraperAPI.scrape`).  `none` models an absent field. -/
structure ScraperResponse where
  markdown : Option String := none
  screenshot : Option ScreenshotRef := none
  data : Option (List (String × String)) := none
  status : Option String := none
  processing : Option Bool := none
  error : Option String := none
  url : Option String := none
  job_id : Option String := none
deriving DecidableEq, Repr

/-- JavaScript truthiness of an optional string field: truthy iff present and
non-empty (`undefined`, `null` and `""` are falsy). -/
def strTruthy : Option String → Bool
  | none => false
  | some s => s != ""

/-- `scraperData.status || null` from the poll loop: the status normalized to
`null` when falsy. -/
def truthyStatus (r : ScraperResponse) : Option String :=
  if strTruthy r.status then r.status else none

/-- `['completed', 'failed'].includes(scraperStatus || '')`. -/
def isTerminalStatus (r : ScraperResponse) : Bool :=
  truthyStatus r == some "completed" || truthyStatus r == some "failed"

/-- The "actually ready" predicate: the payload carries markdown text or a
screenshot reference (the negation of `!scraperData.markdown &&
!scraperData.screenshot`). -/
def actuallyReady (r : ScraperResponse) : Bool :=
  strTruthy r.markdown || r.screenshot.isSome

/-- What one iteration of the `ScraperAPI.scrape` poll loop decides to do with
the freshly fetched response. -/
inductive StepResult where
  /-- sleep for the polling interval and poll again (`continue`, or falling
  through to the trailing `sleep`). -/
  | retry
  /-- `throw new Error('Scraper error: ...')`. -/
  | failure (msg : String)
  /-- report 100% progress and return the payload. -/
  | success (payload : ScraperResponse)
deriving DecidableEq, Repr

/-- The body of the poll loop of `ScraperAPI.scrape` (src/lib/scraper-api.ts,
lines 105-137), applied to the parsed poll response:

* `processing === true` → sleep and continue;
* terminal status (`completed`/`failed`): a truthy `error` throws, a payload
  with neither markdown nor screenshot sleeps and continues, otherwise the
  payload is returned after a 100% progress report;
* any other status → sleep and poll again.  -/
def pollStep (r : ScraperResponse) : StepResult :=
  if r.processing == some true then
    .retry
  else if (truthyStatus r).isSome && isTerminalStatus r then
    if strTruthy r.error then
      .failure ("Scraper error: " ++ r.error.getD "")
    else if !strTruthy r.markdown && !r.screenshot.isSome then
      .retry
    else
      .success r
  else
    .retry

/-- Outcome of running the poll loop against a finite script of responses. -/
inductive Outcome where
  /-- the loop returned this payload. -/
  | success (payload : ScraperResponse)
  /-- the loop threw with this message. -/
  | failure (msg : String)
  /-- the script was exhausted with the loop still polling. -/
  | pending
deriving DecidableEq, Repr

/-- Observable result of the poll loop: how many polls were issued, how many
times the loop slept, the progress values handed to the progress callback
(the iteration counter at the start of every iteration, then `100` on the
success path), and the outcome. -/
structure PollLoopResult where
  consumed : Nat
  sleeps : Nat
  trace : List Nat
  outcome : Outcome
deriving DecidableEq, Repr

/-- The poll loop of `ScraperAPI.scrape`, driven by the finite script of
remote responses; `c` is the value of `fetchCount` on entry.  Each iteration
increments `fetchCount`, reports it as progress, fetches one response and
dispatches on `pollStep`. -/
def runPolls : List ScraperResponse → Nat → PollLoopResult
  | [], _ => ⟨0, 0, [], .pending⟩
  | r :: rest, c =>
    let fc := c + 1
    match pollStep r with
    | .retry =>
      let res := runPolls rest fc
      ⟨res.consumed + 1, res.sleeps + 1, fc :: res.trace, res.outcome⟩
    | .failure m => ⟨1, 0, [fc], .failure m⟩
    | .success p => ⟨1, 0, [fc, 100], .success p⟩

/-- The body of the submit request issued by `ScraperAPI.scrape`:
`JSON.stringify({ prompt, chat_id: chatId, html_only: false })` — note that it
has no format field. -/
structure SubmitRequest where
  prompt : String
  chat_id : String
  html_only : Bool
deriving DecidableEq, Repr

/-- A `get_data` poll request: `get_data?chat_id=...&format=...`. -/
structure PollRequest where
  chat_id : String
  format : String
deriving DecidableEq, Repr

/-- Observable behaviour of one `ScraperAPI.scrape` call: the submit request
issued, the poll requests issued, the progress trace and the outcome. -/
structure ScrapeRun where
  submitReq : SubmitRequest
  pollReqs : List PollRequest
  trace : List Nat
  outcome : Outcome
deriving DecidableEq, Repr

/-- `ScraperAPI.scrape` (src/lib/scraper-api.ts, lines 59-141).  The remote
interaction is modelled by the submit response `submit` and the script of poll
responses `polls`.  If the submit response has no truthy `job_id` the data is
returned as is; otherwise the poll loop runs, each poll hitting
`get_data?chat_id=...&format=quick`. -/
def scrape (prompt format chatId : String) (submit : ScraperResponse)
    (polls : List ScraperResponse) : ScrapeRun :=
  let submitReq : SubmitRequest := ⟨prompt, chatId, false⟩
  if !strTruthy submit.job_id then
    ⟨submitReq, [], [], .success submit⟩
  else
    let res := runPolls polls 0
    ⟨submitReq, List.replicate res.consumed ⟨chatId, "quick"⟩, res.trace, res.outcome⟩

/-! ## The `scrapeWithPrompt` variant (src/unnamed/part_000)

This standalone server variant of the coordinator differs from
`ScraperAPI.scrape` in three ways: an explicit error message breaks out of the
loop returning the error payload instead of throwing; a response with a falsy
status that already carries markdown or a screenshot is an implicit success
(with an unconditional 100% progress notification); and when the caller
requested the `json` format, the terminal-status exit issues one extra
`get_data?format=json` fetch and attaches its body as `.data`. -/

/-- What one iteration of the `scrapeWithPrompt` poll loop decides. -/
inductive SwpStep where
  /-- sleep 5000ms and poll again. -/
  | retry
  /-- `break` on a truthy `scraperData.error` (the payload is returned as is). -/
  | exitErr
  /-- `break` on a terminal status with data present (after the optional json
  refetch). -/
  | exitData
  /-- `break` on a falsy status with data present, after notifying 100%. -/
  | exitImplicit
deriving DecidableEq, Repr

/-- The body of the poll loop of `scrapeWithPrompt` (src/unnamed/part_000,
lines 243-329), applied to the parsed poll response. -/
def swpStep (r : ScraperResponse) : SwpStep :=
  if r.processing == some true then
    .retry
  else if (truthyStatus r).isSome && isTerminalStatus r then
    if strTruthy r.error then
      .exitErr
    else if !strTruthy r.markdown && !r.screenshot.isSome then
      .retry
    else
      .exitData
  else if !(truthyStatus r).isSome then
    if strTruthy r.markdown || r.screenshot.isSome then
      .exitImplicit
    else
      .retry
  else
    .retry

/-- How one `scrapeWithPrompt` run left its poll loop. -/
inductive SwpExit where
  | terminalData
  | terminalErr
  | implicitData
  /-- the response script was exhausted with the loop still polling. -/
  | pending
  /-- the submit response carried no `job_id`, so the loop never ran. -/
  | noJob
deriving DecidableEq, Repr

/-- Observable behaviour of one `scrapeWithPrompt` call: polls issued, the
formats of any extra `get_data` fetches beyond the quick-format polls, the
progress notifications, the exit kind, and the returned `scraperData`
(`none` while the loop is still pending). -/
structure SwpRun where
  consumed : Nat
  extraFetchFormats : List String
  trace : List Nat
  exit : SwpExit
  result : Option ScraperResponse
deriving DecidableEq, Repr

/-- The poll loop of `scrapeWithPrompt`, driven by the script of poll
responses; `jsonResp` is the body served by the extra
`get_data?format=json` fetch when it is issued. -/
def swpRun (fmt : String) (jsonResp : List (String × String)) :
    List ScraperResponse → Nat → SwpRun
  | [], _ => ⟨0, [], [], .pending, none⟩
  | r :: rest, c =>
    let fc := c + 1
    match swpStep r with
    | .retry =>
      let res := swpRun fmt jsonResp rest fc
      ⟨res.consumed + 1, res.extraFetchFormats, fc :: res.trace, res.exit, res.result⟩
    | .exitErr => ⟨1, [], [fc], .terminalErr, some r⟩
    | .exitImplicit => ⟨1, [], [fc, 100], .implicitData, some r⟩
    | .exitData =>
      if fmt == "json" then
        ⟨1, ["json"], [fc], .terminalData, some { r with data := some jsonResp }⟩
      else
        ⟨1, [], [fc], .terminalData, some r⟩

/-- The empty object `{}` that `scrapeWithPrompt` initializes `scraperData`
with and returns when the submit response has no `job_id`. -/
def emptyResponse : ScraperResponse :=
  ⟨none, none, none, none, none, none, none, none⟩

/-- `scrapeWithPrompt` (src/unnamed/part_000, lines 222-332): submit, then the
poll loop if a `job_id` was returned, else the initial `{}` is returned. -/
def scrapeWithPrompt (fmt : String) (jsonResp : List (String × String))
    (submit : ScraperResponse) (polls : List ScraperResponse) : SwpRun :=
  if strTruthy submit.job_id then
    swpRun fmt jsonResp polls 0
  else
    ⟨0, [], [], .noJob, some emptyResponse⟩

/-! ## The tool-call handler (src/server/index.ts, `setupRequestHandlers`)

The `CallToolRequestSchema` handler wraps its whole body in `try/catch`; the
`catch` turns any thrown error into `{ content: [{type: 'text', text:
'Error: ...'}], isError: true }`.  The body is embedded as `handlerCore`, a
fallible function whose `.error` models a thrown exception; the results of
the awaited remote calls are passed in as `Except` arguments. -/

/-- One element of a tool result's `content` array: text items carry `text`,
image items carry `url` (`none` models an absent field, e.g. the
`JSON.stringify(undefined)` text of the part_000 default response). -/
structure ToolContent where
  ctype : String
  text : Option String
  url : Option String
deriving DecidableEq, Repr

/-- The result object returned across the tool boundary. -/
structure ToolResult where
  content : List ToolContent
  isError : Bool
deriving DecidableEq, Repr

/-- A crude model of `JSON.stringify` on a record body (used only for the
text of the default responses; no claim depends on its exact shape). -/
def stringifyRecord (d : List (String × String)) : String :=
  "\x7b" ++ String.intercalate "," (d.map fun kv => "\"" ++ kv.1 ++ "\":\"" ++ kv.2 ++ "\"") ++ "\x7d"

/-- A crude model of `JSON.stringify` on a `ScraperResponse` (used only for
the text of the default response branch). -/
def stringifyResponse (r : ScraperResponse) : String :=
  let fields : List String :=
    (match r.markdown with
      | some s => ["\"markdown\":\"" ++ s ++ "\""]
      | none => []) ++
    (match r.screenshot with
      | some s => ["\"screenshot\":\x7b\"url\":\"" ++ s.url ++ "\"\x7d"]
      | none => []) ++
    (match r.data with
      | some d => ["\"data\":" ++ stringifyRecord d]
      | none => []) ++
    (match r.status with
      | some s => ["\"status\":\"" ++ s ++ "\""]
      | none => []) ++
    (match r.error with
      | some s => ["\"error\":\"" ++ s ++ "\""]
      | none => [])
  "\x7b" ++ String.intercalate "," fields ++ "\x7d"

/-- `handlerData.screenshot && handlerData.screenshot.url` (both truthy). -/
def screenshotUrlTruthy (r : ScraperResponse) : Bool :=
  match r.screenshot with
  | some s => s.url != ""
  | none => false

/-- The `try` body of the `CallToolRequestSchema` handler
(src/server/index.ts, lines 136-234).  `scrapeResult` and `screenshotResult`
are the outcomes of the awaited remote calls (`.error` = the call threw); an
`.error` result of `handlerCore` models an exception reaching the `catch`. -/
def handlerCore (name fmt : String)
    (scrapeResult : Except String ScraperResponse)
    (screenshotResult : Except String (List (String × String))) :
    Except String ToolResult :=
  if name == "scrape" then
    match scrapeResult with
    | .error e => .error e
    | .ok d =>
      if fmt == "markdown" && strTruthy d.markdown then
        .ok ⟨[⟨"text", some (d.markdown.getD ""), none⟩], false⟩
      else if fmt == "screenshot" && screenshotUrlTruthy d then
        .ok ⟨[⟨"text", some ("Screenshot taken successfully. You can view it via *MCP Resources* (Paperclip icon) @ URI: scraperis_screenshot://" ++ ((d.screenshot.map ScreenshotRef.url).getD "")), none⟩], false⟩
      else if fmt == "json" && d.data.isSome then
        .ok ⟨[⟨"text", some ("JSON Data:\n```json\n" ++ stringifyRecord (d.data.getD []) ++ "\n```"), none⟩], false⟩
      else
        .ok ⟨[⟨"text", some (stringifyResponse d), none⟩], false⟩
  else if name == "screenshot" then
    match screenshotResult with
    | .error e => .error e
    | .ok d => .ok ⟨[⟨"text", some (stringifyRecord d), none⟩], false⟩
  else
    .error ("Unknown tool: " ++ name)

/-- The tagged failure result produced by the handler's `catch` block. -/
def errResult (e : String) : ToolResult :=
  ⟨[⟨"text", some ("Error: " ++ e), none⟩], true⟩

/-- The complete `CallToolRequestSchema` handler: the `try` body with its
`catch`, which converts any thrown error into a tagged `isError` result. -/
def handleCallTool (name fmt : String)
    (scrapeResult : Except String ScraperResponse)
    (screenshotResult : Except String (List (String × String))) : ToolResult :=
  match handlerCore name fmt scrapeResult screenshotResult with
  | .ok res => res
  | .error e => errResult e

/-- The `try` body of the standalone `CallToolRequestSchema` handler of
src/unnamed/part_000 (lines 130-204).  For the `scrape` tool it first
short-circuits on `processing === true` with a "still processing" text, then
builds the combined markdown/image/json content when data is present, else
falls through to the default `JSON.stringify` response; `screenshotWithURL`
returns `undefined`, and an unknown tool name raises nothing — `handlerData`
stays `undefined` and the default response serializes it
(`JSON.stringify(undefined)` is `undefined`, modelled as an absent text). -/
def swpHandlerCore (name fmt : String)
    (scrapeResult : Except String ScraperResponse)
    (screenshotResult : Except String Unit) :
    Except String ToolResult :=
  if name == "scrape" then
    match scrapeResult with
    | .error e => .error e
    | .ok d =>
      if d.processing == some true then
        .ok ⟨[⟨"text", some ("Still processing your request. Current status: " ++
          (if strTruthy d.status then d.status.getD "" else "running") ++
          ". Please wait a moment and try again."), none⟩], false⟩
      else if strTruthy d.markdown || d.screenshot.isSome then
        .ok ⟨(if strTruthy d.markdown then
                [⟨"text", d.markdown, none⟩] else []) ++
             (if screenshotUrlTruthy d then
                [⟨"image", none, d.screenshot.map ScreenshotRef.url⟩] else []) ++
             (if fmt == "json" && d.data.isSome then
                [⟨"text", some ("JSON Data:\n```json\n" ++
                  stringifyRecord (d.data.getD []) ++ "\n```"), none⟩] else []),
          false⟩
      else
        .ok ⟨[⟨"text", some (stringifyResponse d), none⟩], false⟩
  else if name == "screenshot" then
    match screenshotResult with
    | .error e => .error e
    | .ok _ => .ok ⟨[⟨"text", none, none⟩], false⟩
  else
    .ok ⟨[⟨"text", none, none⟩], false⟩

/-- The complete standalone handler of src/unnamed/part_000: its `catch`
(lines 205-211) returns `{ content: [], isError: true }`, discarding the
error text. -/
def swpHandleCallTool (name fmt : String)
    (scrapeResult : Except String ScraperResponse)
    (screenshotResult : Except String Unit) : ToolResult :=
  match swpHandlerCore name fmt scrapeResult screenshotResult with
  | .ok res => res
  | .error _ => ⟨[], true⟩

/-! ## Helper lemmas -/

/-- A terminal status is in particular a present (truthy) status. -/
lemma truthyStatus_isSome_of_terminal {r : ScraperResponse}
    (h : isTerminalStatus r = true) : (truthyStatus r).isSome = true := by
  unfold isTerminalStatus at h
  cases hs : truthyStatus r with
  | none => rw [hs] at h; simp at h
  | some s => simp

/-- The poll-loop body returns a payload only when it is actually ready, and
the payload is the response itself. -/
lemma pollStep_success {r p : ScraperResponse}
    (h : pollStep r = .success p) : p = r ∧ actuallyReady r = true := by
  unfold pollStep at h
  split at h
  · exact absurd h (by simp)
  · split at h
    · split at h
      · exact absurd h (by simp)
      · split at h
        · exact absurd h (by simp)
        · rename_i hready
          refine ⟨by injection h with h; exact h.symm, ?_⟩
          unfold actuallyReady
          revert hready
          cases strTruthy r.markdown <;> cases r.screenshot.isSome <;> simp
    · exact absurd h (by simp)

lemma runPolls_success_ready :
    ∀ (polls : List ScraperResponse) (c : Nat) (p : ScraperResponse),
      (runPolls polls c).outcome = .success p → actuallyReady p = true := by
  intro polls
  induction polls with
  | nil => intro c p h; simp [runPolls] at h
  | cons r rest ih =>
    intro c p h
    cases hs : pollStep r with
    | retry =>
      simp only [runPolls, hs] at h
      exact ih (c + 1) p h
    | failure m => simp [runPolls, hs] at h
    | success q =>
      simp only [runPolls, hs, Outcome.success.injEq] at h
      obtain ⟨hqr, hready⟩ := pollStep_success hs
      rw [← h, hqr]
      exact hready

/-- Complete characterization of a poll-loop run: a success consumes some
`n ≥ 1` responses and traces `[c+1, …, c+n, 100]`; a failure consumes `n ≥ 1`
responses and traces `[c+1, …, c+n]`; an exhausted script consumes everything
and traces `[c+1, …, c+len]`. -/
lemma runPolls_shape (polls : List ScraperResponse) :
    ∀ c : Nat,
      (∃ n p, 1 ≤ n ∧ n ≤ polls.length ∧
        runPolls polls c = ⟨n, n - 1, List.range' (c + 1) n ++ [100], .success p⟩) ∨
      (∃ n m, 1 ≤ n ∧ n ≤ polls.length ∧
        runPolls polls c = ⟨n, n - 1, List.range' (c + 1) n, .failure m⟩) ∨
      runPolls polls c = ⟨polls.length, polls.length, List.range' (c + 1) polls.length, .pending⟩ := by
  induction polls with
  | nil =>
    intro c
    right; right
    simp [runPolls]
  | cons r rest ih =>
    intro c
    cases hs : pollStep r with
    | success p =>
      left
      refine ⟨1, p, le_refl 1, by simp, ?_⟩
      simp [runPolls, hs, List.range']
    | failure m =>
      right; left
      refine ⟨1, m, le_refl 1, by simp, ?_⟩
      simp [runPolls, hs, List.range']
    | retry =>
      rcases ih (c + 1) with ⟨n, p, hn1, hn2, heq⟩ | ⟨n, m, hn1, hn2, heq⟩ | heq
      · left
        refine ⟨n + 1, p, by omega, by simp; omega, ?_⟩
        simp only [runPolls, hs, heq]
        rw [List.range'_succ]
        have hsl : n - 1 + 1 = n + 1 - 1 := by omega
        rw [hsl, List.cons_append]
      · right; left
        refine ⟨n + 1, m, by omega, by simp; omega, ?_⟩
        simp only [runPolls, hs, heq]
        rw [List.range'_succ]
        have hsl : n - 1 + 1 = n + 1 - 1 := by omega
        rw [hsl]
      · right; right
        simp only [runPolls, hs, heq]
        rw [List.length_cons, List.range'_succ]

/-- Every poll request of a `List.replicate` batch asks for the quick format. -/
lemma replicate_all_quick (n : Nat) (chatId : String) :
    ((List.replicate n (⟨chatId, "quick"⟩ : PollRequest)).all
      fun q => q.format == "quick") = true := by
  rw [List.all_eq_true]
  intro x hx
  rw [List.eq_of_mem_replicate hx]
  rfl

/-- The extra-fetch discipline of the `scrapeWithPrompt` poll loop: the
`format=json` refetch happens exactly on a terminal-status exit with the json
format requested, and then the fetched body is attached as `.data`. -/
lemma swpRun_extra (fmt : String) (j : List (String × String)) :
    ∀ (polls : List ScraperResponse) (c : Nat),
      ((swpRun fmt j polls c).exit = .terminalData →
        ((fmt == "json") = true →
          (swpRun fmt j polls c).extraFetchFormats = ["json"] ∧
          ∃ r, (swpRun fmt j polls c).result = some r ∧ r.data = some j) ∧
        ((fmt == "json") = false →
          (swpRun fmt j polls c).extraFetchFormats = [])) ∧
      ((swpRun fmt j polls c).exit ≠ .terminalData →
        (swpRun fmt j polls c).extraFetchFormats = []) := by
  intro polls
  induction polls with
  | nil =>
    intro c
    constructor
    · intro h; simp [swpRun] at h
    · intro _; simp [swpRun]
  | cons r rest ih =>
    intro c
    cases hs : swpStep r with
    | retry =>
      simp only [swpRun, hs]
      exact ih (c + 1)
    | exitErr =>
      constructor
      · intro h; simp [swpRun, hs] at h
      · intro _; simp [swpRun, hs]
    | exitImplicit =>
      constructor
      · intro h; simp [swpRun, hs] at h
      · intro _; simp [swpRun, hs]
    | exitData =>
      by_cases hj : (fmt == "json") = true
      · constructor
        · intro _
          refine ⟨fun _ => ?_, fun hj' => ?_⟩
          · exact ⟨by simp [swpRun, hs, hj],
              { r with data := some j }, by simp [swpRun, hs, hj], rfl⟩
          · rw [hj] at hj'; exact absurd hj' (by simp)
        · intro h
          exact absurd (by simp [swpRun, hs, hj]) h
      · have hj' : (fmt == "json") = false := by
          cases hfmt : fmt == "json" with
          | true => exact absurd hfmt hj
          | false => rfl
        constructor
        · intro _
          refine ⟨fun hjj => absurd hjj (by rw [hj']; simp), fun _ => ?_⟩
          simp [swpRun, hs, hj']
        · intro h
          exact absurd (by simp [swpRun, hs, hj']) h

/-! ## Claim C1 -/

/-- A terminal poll response that is empty and also carries an error message:
on it, `ScraperAPI.scrape` raises the job failure instead of sleeping and
polling again, refuting the claim's unconditional "sleeps and polls again". -/
def c1cex : ScraperResponse := { status := some "failed", error := some "blocked" }

/-- C1 counterexample: the response `{ status: 'failed', error: 'blocked' }`
is terminal and carries neither markdown nor a screenshot, yet the poll loop
does not sleep and poll again: it throws the job failure at once (consuming
only one poll even with more script available). -/
theorem c1_counterexample :
    isTerminalStatus c1cex = true ∧ actuallyReady c1cex = false ∧
    pollStep c1cex = .failure "Scraper error: blocked" ∧
    pollStep c1cex ≠ .retry ∧
    (runPolls [c1cex, c1cex] 0).consumed = 1 := by decide

/-- C1 (amended): a terminal poll response carrying neither markdown nor a
screenshot reference is never returned as a success by `ScraperAPI.scrape`;
when it additionally carries no error message the loop sleeps and polls
again (when an error message is present the job failure is raised instead). -/
theorem c1_amended (r : ScraperResponse)
    (hT : isTerminalStatus r = true)
    (hE : actuallyReady r = false) :
    (∀ p, pollStep r ≠ .success p) ∧
    (strTruthy r.error = false → pollStep r = .retry) := by
  have hsome := truthyStatus_isSome_of_terminal hT
  have hor := Bool.or_eq_false_iff.mp (by unfold actuallyReady at hE; exact hE)
  constructor
  · intro p hp
    obtain ⟨-, hready⟩ := pollStep_success hp
    rw [hE] at hready
    exact absurd hready (by simp)
  · intro hErr
    unfold pollStep
    by_cases hp : (r.processing == some true) = true
    · simp [hp]
    · have hp' : (r.processing == some true) = false := by
        cases hq : r.processing == some true with
        | true => exact absurd hq hp
        | false => rfl
      simp [hp', hsome, hT, hErr, hor.1, hor.2]

/-- A concrete terminal empty response without an error message, for the C1
witness. -/
def c1w : ScraperResponse := { status := some "completed" }

/-- C1 witness: the amended theorem applied to `{ status: 'completed' }`. -/
theorem c1_amended_witness :
    isTerminalStatus c1w = true ∧ actuallyReady c1w = false ∧
    ((∀ p, pollStep c1w ≠ .success p) ∧
      (strTruthy c1w.error = false → pollStep c1w = .retry)) :=
  ⟨by decide, by decide, c1_amended c1w (by decide) (by decide)⟩

/-! ## Claim C2 -/

/-- C2: a poll response with `processing === true` is never returned from on
that iteration, whatever its status, error or payload fields: the loop body
yields a retry, and the run on such a head just sleeps once more and
continues with the rest of the script, preserving the eventual outcome. -/
theorem c2_processing_always_retries (r : ScraperResponse)
    (h : r.processing = some true) :
    pollStep r = .retry ∧
    ∀ (rest : List ScraperResponse) (c : Nat),
      runPolls (r :: rest) c =
        ⟨(runPolls rest (c + 1)).consumed + 1, (runPolls rest (c + 1)).sleeps + 1,
          (c + 1) :: (runPolls rest (c + 1)).trace, (runPolls rest (c + 1)).outcome⟩ := by
  have hstep : pollStep r = .retry := by unfold pollStep; simp [h]
  exact ⟨hstep, fun rest c => by simp [runPolls, hstep]⟩

/-- A processing response that simultaneously reports a terminal status, an
error and a ready payload, for the C2 witness. -/
def c2w : ScraperResponse :=
  { processing := some true, status := some "completed",
    markdown := some "x", error := some "boom" }

/-- C2 witness: even with `status: 'completed'`, markdown and an error
message all present, `processing: true` forces another poll. -/
theorem c2_processing_always_retries_witness :
    c2w.processing = some true ∧
    (pollStep c2w = .retry ∧
      ∀ (rest : List ScraperResponse) (c : Nat),
        runPolls (c2w :: rest) c =
          ⟨(runPolls rest (c + 1)).consumed + 1, (runPolls rest (c + 1)).sleeps + 1,
            (c + 1) :: (runPolls rest (c + 1)).trace, (runPolls rest (c + 1)).outcome⟩) :=
  ⟨rfl, c2_processing_always_retries c2w rfl⟩

/-! ## Claim C3 -/

/-- A response with `status: 'failed'` and no error message but a markdown
payload: the claim demands a failure outcome, the code returns it as a
success. -/
def c3cex : ScraperResponse := { status := some "failed", markdown := some "partial" }

/-- C3 counterexample: on `{ status: 'failed', markdown: 'partial' }` (no
error message) the poll loop does not raise a job failure: it returns the
payload as a success. -/
theorem c3_counterexample :
    truthyStatus c3cex = some "failed" ∧ strTruthy c3cex.error = false ∧
    pollStep c3cex = .success c3cex ∧
    (runPolls [c3cex] 0).outcome = .success c3cex := by decide

/-- C3 (amended): a non-processing terminal poll response raises the job
failure immediately — carrying the error message and issuing no further
polls — exactly when an error message is present; with no error message a
`failed` status is treated like any terminal status: the payload is returned
as a success when markdown or a screenshot is present, and the loop polls
again otherwise. -/
theorem c3_amended (r : ScraperResponse)
    (hP : (r.processing == some true) = false)
    (hT : isTerminalStatus r = true) :
    (strTruthy r.error = true →
      pollStep r = .failure ("Scraper error: " ++ r.error.getD "") ∧
      ∀ (rest : List ScraperResponse) (c : Nat),
        runPolls (r :: rest) c =
          ⟨1, 0, [c + 1], .failure ("Scraper error: " ++ r.error.getD "")⟩) ∧
    (strTruthy r.error = false → actuallyReady r = true → pollStep r = .success r) ∧
    (strTruthy r.error = false → actuallyReady r = false → pollStep r = .retry) := by
  have hsome := truthyStatus_isSome_of_terminal hT
  refine ⟨fun hE => ?_, fun hE hA => ?_, fun hE hA => ?_⟩
  · have hstep : pollStep r = .failure ("Scraper error: " ++ r.error.getD "") := by
      unfold pollStep; simp [hP, hsome, hT, hE]
    exact ⟨hstep, fun rest c => by simp [runPolls, hstep]⟩
  · unfold pollStep
    unfold actuallyReady at hA
    rcases Bool.or_eq_true_iff.mp hA with h1 | h1 <;> simp [hP, hsome, hT, hE, h1]
  · unfold pollStep
    have hor := Bool.or_eq_false_iff.mp (by unfold actuallyReady at hA; exact hA)
    simp [hP, hsome, hT, hE, hor.1, hor.2]

/-- A terminal failed response with an error message, for the C3 witness. -/
def c3w : ScraperResponse := { status := some "failed", error := some "blocked" }

/-- C3 witness: the amended theorem applied to the failed-with-error
response (spec Scenario C). -/
theorem c3_amended_witness :
    (c3w.processing == some true) = false ∧ isTerminalStatus c3w = true ∧
    ((strTruthy c3w.error = true →
      pollStep c3w = .failure ("Scraper error: " ++ c3w.error.getD "") ∧
      ∀ (rest : List ScraperResponse) (c : Nat),
        runPolls (c3w :: rest) c =
          ⟨1, 0, [c + 1], .failure ("Scraper error: " ++ c3w.error.getD "")⟩) ∧
    (strTruthy c3w.error = false → actuallyReady c3w = true → pollStep c3w = .success c3w) ∧
    (strTruthy c3w.error = false → actuallyReady c3w = false → pollStep c3w = .retry)) :=
  ⟨by decide, by decide, c3_amended c3w (by decide) (by decide)⟩

/-! ## Claim C4 -/

/-- C4 counterexample: when the submit response carries no job handle,
`ScraperAPI.scrape` returns it as is — here the empty response `{}` is
returned as a success although it satisfies neither disjunct of the
actually-ready predicate. -/
theorem c4_counterexample :
    (scrape "p" "markdown" "chat1" emptyResponse []).outcome = .success emptyResponse ∧
    actuallyReady emptyResponse = false := by decide

/-- C4 (amended): every payload that `ScraperAPI.scrape` returns
successfully after entering the poll loop (i.e. when the submit response
carried a truthy job handle) satisfies the actually-ready predicate; the
synchronous no-job-handle path returns the submit response unchecked. -/
theorem c4_amended (prompt fmt chatId : String) (submit : ScraperResponse)
    (polls : List ScraperResponse) (p : ScraperResponse)
    (hJob : strTruthy submit.job_id = true)
    (hOut : (scrape prompt fmt chatId submit polls).outcome = .success p) :
    actuallyReady p = true := by
  unfold scrape at hOut
  rw [hJob] at hOut
  simp only [Bool.not_true, Bool.false_eq_true, if_false] at hOut
  exact runPolls_success_ready polls 0 p hOut

/-- A submit response with a job handle, for the C4 witness. -/
def c4wSubmit : ScraperResponse := { job_id := some "j1" }

/-- A completed, ready poll response for the C4 witness. -/
def c4wPoll : ScraperResponse := { status := some "completed", markdown := some "body" }

/-- C4 witness: the amended theorem applied to a one-poll run that returns
`c4wPoll`. -/
theorem c4_amended_witness :
    strTruthy c4wSubmit.job_id = true ∧ actuallyReady c4wPoll = true :=
  ⟨by decide,
    c4_amended "p" "markdown" "chat" c4wSubmit [c4wPoll] c4wPoll (by decide) (by decide)⟩

/-! ## Claim C5 -/

/-- A status-less poll response that already carries markdown. -/
def c5cex : ScraperResponse := { markdown := some "x" }

/-- C5 counterexample: on a response with no status but markdown present,
`ScraperAPI.scrape` does not treat it as an implicit success: the loop body
retries, a one-response script ends still pending, and no 100% progress is
emitted. -/
theorem c5_counterexample :
    truthyStatus c5cex = none ∧ actuallyReady c5cex = true ∧
    pollStep c5cex = .retry ∧
    (runPolls [c5cex] 0).outcome = .pending ∧
    (runPolls [c5cex] 0).trace = [1] := by decide

/-- C5 (amended): `ScraperAPI.scrape` has no implicit-success path — any
non-processing response whose status is not a recognized terminal value is
polled again even when it already carries data.  Only the standalone
`scrapeWithPrompt` variant returns such a payload, and only when the status
is absent (falsy), emitting the 100% notification; when the status is
present but not terminal even that variant polls again. -/
theorem c5_amended :
    (∀ r : ScraperResponse, (r.processing == some true) = false →
      isTerminalStatus r = false → pollStep r = .retry) ∧
    (∀ r : ScraperResponse, (r.processing == some true) = false →
      truthyStatus r = none → actuallyReady r = true → swpStep r = .exitImplicit) ∧
    (∀ r : ScraperResponse, (r.processing == some true) = false →
      (truthyStatus r).isSome = true → isTerminalStatus r = false → swpStep r = .retry) := by
  refine ⟨fun r hp hT => ?_, fun r hp hs hA => ?_, fun r hp hs hT => ?_⟩
  · unfold pollStep
    simp [hp, hT]
  · unfold swpStep
    unfold actuallyReady at hA
    rcases Bool.or_eq_true_iff.mp hA with h1 | h1 <;> simp [hp, hs, h1]
  · unfold swpStep
    simp [hp, hs, hT]

/-- A status-less ready response, for the C5 witness. -/
def c5w1 : ScraperResponse := { markdown := some "w" }

/-- A ready response with a present non-terminal status, for the C5 witness. -/
def c5w2 : ScraperResponse := { status := some "running", markdown := some "w" }

/-- C5 witness: the amended theorem applied to a status-less ready response
(retried by `pollStep`, implicit success in `swpStep`) and to a
`status: 'running'` ready response (retried by both). -/
theorem c5_amended_witness :
    pollStep c5w1 = .retry ∧ swpStep c5w1 = .exitImplicit ∧ swpStep c5w2 = .retry :=
  ⟨c5_amended.1 c5w1 (by decide) (by decide),
    c5_amended.2.1 c5w1 (by decide) (by decide) (by decide),
    c5_amended.2.2 c5w2 (by decide) (by decide) (by decide)⟩

/-! ## Claim C6 -/

/-- A still-processing poll response, for the long C6 run. -/
def c6procResp : ScraperResponse := { processing := some true }

/-- A completed ready poll response, for the C6 run. -/
def c6doneResp : ScraperResponse := { status := some "completed", markdown := some "done" }

/-- A script of 100 still-processing polls followed by one completed poll. -/
def c6script : List ScraperResponse := List.replicate 100 c6procResp ++ [c6doneResp]

/-- C6 counterexample: on a run that needs 101 polls the progress sequence is
`[1, …, 100, 101, 100]` — the value 100 is delivered twice (once as the raw
iteration counter), an intermediate value (101) reaches and exceeds 100, and
the sequence is not non-decreasing, although the run does return a success. -/
theorem c6_counterexample :
    (runPolls c6script 0).outcome = .success c6doneResp ∧
    (runPolls c6script 0).trace.count 100 = 2 ∧
    ¬ (runPolls c6script 0).trace.Sorted (· ≤ ·) ∧
    101 ∈ (runPolls c6script 0).trace.dropLast := by decide

/-- C6 (amended): on every run of the poll loop whose response script is
decided within at most 99 polls, the progress sequence of a successful run
is non-decreasing, ends at 100, contains 100 exactly once, and all its
intermediate values stay below 100; and a run that does not return success
never delivers the value 100.  (For longer runs the raw iteration counter
itself reaches 100 and beyond, breaking each of these properties.) -/
theorem c6_amended (polls : List ScraperResponse) (h : polls.length ≤ 99) :
    ((∀ p, (runPolls polls 0).outcome = .success p →
      (runPolls polls 0).trace.Sorted (· ≤ ·) ∧
      (runPolls polls 0).trace.count 100 = 1 ∧
      (runPolls polls 0).trace.getLast? = some 100 ∧
      ∀ x ∈ (runPolls polls 0).trace.dropLast, x < 100) ∧
    ((∀ p, (runPolls polls 0).outcome ≠ .success p) →
      100 ∉ (runPolls polls 0).trace)) := by
  rcases runPolls_shape polls 0 with ⟨n, p0, hn1, hn2, heq⟩ | ⟨n, m, hn1, hn2, heq⟩ | heq
  · constructor
    · intro p _
      rw [heq]
      have hn99 : n ≤ 99 := le_trans hn2 h
      have hbound : ∀ x ∈ List.range' (0 + 1) n, x < 100 := by
        intro x hx
        have := List.mem_range'_1.mp hx
        omega
      refine ⟨?_, ?_, ?_, ?_⟩
      · apply List.pairwise_append.mpr
        refine ⟨(List.pairwise_lt_range' (0 + 1) n).imp le_of_lt, ?_, ?_⟩
        · simp
        · intro a ha b hb
          rw [List.mem_singleton.mp hb]
          exact le_of_lt (hbound a ha)
      · rw [List.count_append]
        have h0 : List.count 100 (List.range' (0 + 1) n) = 0 := by
          apply List.count_eq_zero_of_not_mem
          intro hmem
          exact absurd (hbound 100 hmem) (by omega)
        rw [h0]
        simp
      · exact List.getLast?_concat _
      · rw [List.dropLast_concat]
        exact hbound
    · intro hns
      exact absurd (by rw [heq]) (hns p0)
  · constructor
    · intro p hp
      rw [heq] at hp
      exact absurd hp (by simp)
    · intro _
      rw [heq]
      intro hmem
      have := List.mem_range'_1.mp hmem
      omega
  · constructor
    · intro p hp
      rw [heq] at hp
      exact absurd hp (by simp)
    · intro _
      rw [heq]
      intro hmem
      have := List.mem_range'_1.mp hmem
      omega

/-- C6 witness: the amended theorem applied to a one-poll successful run. -/
theorem c6_amended_witness :
    [c6doneResp].length ≤ 99 ∧
    ((∀ p, (runPolls [c6doneResp] 0).outcome = .success p →
      (runPolls [c6doneResp] 0).trace.Sorted (· ≤ ·) ∧
      (runPolls [c6doneResp] 0).trace.count 100 = 1 ∧
      (runPolls [c6doneResp] 0).trace.getLast? = some 100 ∧
      ∀ x ∈ (runPolls [c6doneResp] 0).trace.dropLast, x < 100) ∧
    ((∀ p, (runPolls [c6doneResp] 0).outcome ≠ .success p) →
      100 ∉ (runPolls [c6doneResp] 0).trace)) :=
  ⟨by decide, c6_amended [c6doneResp] (by decide)⟩

/-! ## Claim C7 -/

/-- The scenario-B submit response `{ jobId: 'j1' }`. -/
def c7submit : ScraperResponse := { job_id := some "j1" }

/-- The scenario-B first poll response `{ processing: true, status: 'running' }`. -/
def c7poll1 : ScraperResponse := { processing := some true, status := some "running" }

/-- The scenario-B second poll response `{ status: 'completed', proseText: 'World' }`. -/
def c7poll2 : ScraperResponse := { status := some "completed", markdown := some "World" }

/-- C7 counterexample: in scenario B the progress notifications are
`[1, 2, 100]`, not `[1, 100]` — the iteration counter is reported at the
start of every iteration, including the successful one. -/
theorem c7_counterexample :
    (scrape "p" "markdown" "chat" c7submit [c7poll1, c7poll2]).trace = [1, 2, 100] ∧
    (scrape "p" "markdown" "chat" c7submit [c7poll1, c7poll2]).trace ≠ [1, 100] := by decide

/-- C7 (amended): in scenario B the coordinator issues exactly two quick
polls, returns the second poll's payload, and the progress notifications are
`[1, 2, 100]`. -/
theorem c7_amended :
    scrape "p" "markdown" "chat" c7submit [c7poll1, c7poll2] =
      ⟨⟨"p", "chat", false⟩, [⟨"chat", "quick"⟩, ⟨"chat", "quick"⟩], [1, 2, 100],
        .success c7poll2⟩ := by decide

/-! ## Claim C8 -/

/-- A submit response with a job handle, for the C8 counterexample. -/
def c8submit : ScraperResponse := { job_id := some "j1" }

/-- A status-less ready poll response (no structured data), for the C8
counterexample. -/
def c8poll : ScraperResponse := { markdown := some "x" }

/-- C8 counterexample: with the json format requested and a ready payload
that carries no structured data, a run that exits through the
implicit-success path issues no separate json fetch at all, and the
returned payload still has no structured data attached. -/
theorem c8_counterexample :
    (scrapeWithPrompt "json" [("k", "v")] c8submit [c8poll]).extraFetchFormats = [] ∧
    (scrapeWithPrompt "json" [("k", "v")] c8submit [c8poll]).exit = .implicitData ∧
    (scrapeWithPrompt "json" [("k", "v")] c8submit [c8poll]).result = some c8poll ∧
    c8poll.data = none := by decide

/-- C8 (amended): `scrapeWithPrompt` issues the separate `format=json` fetch
exactly when the requested output kind is json and the poll loop exits
through the explicit terminal-status path, in which case the fetched body is
attached to the returned payload as `.data`; for every other output kind no
extra fetch is ever issued, and a json-format run that exits through the
implicit-success (or any other) path issues no extra fetch either. -/
theorem c8_amended (fmt : String) (j : List (String × String))
    (submit : ScraperResponse) (polls : List ScraperResponse) :
    ((fmt == "json") = false →
      (scrapeWithPrompt fmt j submit polls).extraFetchFormats = []) ∧
    ((scrapeWithPrompt fmt j submit polls).exit ≠ .terminalData →
      (scrapeWithPrompt fmt j submit polls).extraFetchFormats = []) ∧
    ((scrapeWithPrompt fmt j submit polls).exit = .terminalData →
      (fmt == "json") = true →
      (scrapeWithPrompt fmt j submit polls).extraFetchFormats = ["json"] ∧
      ∃ r, (scrapeWithPrompt fmt j submit polls).result = some r ∧
        r.data = some j) := by
  unfold scrapeWithPrompt
  by_cases hJob : strTruthy submit.job_id = true
  · rw [if_pos hJob]
    obtain ⟨h1, h2⟩ := swpRun_extra fmt j polls 0
    refine ⟨fun hj => ?_, h2, fun ht hj => (h1 ht).1 hj⟩
    by_cases ht : (swpRun fmt j polls 0).exit = .terminalData
    · exact (h1 ht).2 hj
    · exact h2 ht
  · rw [if_neg hJob]
    exact ⟨fun _ => rfl, fun _ => rfl, fun ht => absurd ht (by simp)⟩

/-- A completed ready poll response, for the C8 witness. -/
def c8wPoll : ScraperResponse := { status := some "completed", markdown := some "x" }

/-- C8 witness: the amended theorem applied to a json-format run that exits
through the terminal-status path (extra fetch issued and attached) — the
other two conjuncts instantiated on the same run. -/
theorem c8_amended_witness :
    ((("json" : String) == "json") = false →
      (scrapeWithPrompt "json" [("k", "v")] c8submit [c8wPoll]).extraFetchFormats = []) ∧
    ((scrapeWithPrompt "json" [("k", "v")] c8submit [c8wPoll]).exit ≠ .terminalData →
      (scrapeWithPrompt "json" [("k", "v")] c8submit [c8wPoll]).extraFetchFormats = []) ∧
    ((scrapeWithPrompt "json" [("k", "v")] c8submit [c8wPoll]).exit = .terminalData →
      (("json" : String) == "json") = true →
      (scrapeWithPrompt "json" [("k", "v")] c8submit [c8wPoll]).extraFetchFormats = ["json"] ∧
      ∃ r, (scrapeWithPrompt "json" [("k", "v")] c8submit [c8wPoll]).result = some r ∧
        r.data = some [("k", "v")]) :=
  c8_amended "json" [("k", "v")] c8submit [c8wPoll]

/-! ## Claim C9 -/

/-- An `.ok` result of `handlerCore` always carries `isError = false`: the
error indicator is set only by the `catch`. -/
lemma handlerCore_ok_flag {name fmt : String} {sr : Except String ScraperResponse}
    {shr : Except String (List (String × String))} {res : ToolResult}
    (h : handlerCore name fmt sr shr = .ok res) : res.isError = false := by
  unfold handlerCore at h
  repeat' split at h
  all_goals first
    | (simp only [Except.ok.injEq] at h; rw [← h])
    | exact absurd h (by simp)

/-- An `.ok` result of the standalone part_000 handler body also always
carries `isError = false`. -/
lemma swpHandlerCore_ok_flag {name fmt : String} {sr : Except String ScraperResponse}
    {shu : Except String Unit} {res : ToolResult}
    (h : swpHandlerCore name fmt sr shu = .ok res) : res.isError = false := by
  unfold swpHandlerCore at h
  repeat' split at h
  all_goals first
    | (simp only [Except.ok.injEq] at h; rw [← h])
    | exact absurd h (by simp)

/-- C9 counterexample: in the standalone part_000 handler, a `scrape` call
whose remote interaction throws (here with message "boom") reaches the
`catch`, which returns `{ content: [], isError: true }` — the error
indicator is set but the result carries no error text at all, refuting the
claimed "isError: true and the error text" for this cited handler. -/
theorem c9_counterexample :
    swpHandlerCore "scrape" "markdown" (.error "boom") (.ok ()) = .error "boom" ∧
    swpHandleCallTool "scrape" "markdown" (.error "boom") (.ok ()) = ⟨[], true⟩ ∧
    (swpHandleCallTool "scrape" "markdown" (.error "boom") (.ok ())).content = [] := by
  refine ⟨rfl, rfl, rfl⟩

/-- C9 (amended): no error raised inside either cited tool-call handler
escapes across the tool boundary — both catches return a well-formed result
tagged `isError: true`, and the indicator is set only when the body raised.
The handlers differ in the rest of the claim: the `ScraperMCPServer` handler
of src/server/index.ts carries the error text (`Error: <message>`) in the
result's content and raises on an unknown tool name, while the standalone
part_000 handler's catch returns an empty content array with no error text,
and its unknown-tool path raises nothing, producing a non-error default
response instead. -/
theorem c9_amended (name fmt : String)
    (sr : Except String ScraperResponse)
    (shr : Except String (List (String × String)))
    (shu : Except String Unit) :
    (∀ e, handlerCore name fmt sr shr = .error e →
      handleCallTool name fmt sr shr = errResult e) ∧
    ((name == "scrape") = true → ∀ m, sr = .error m →
      handlerCore name fmt sr shr = .error m) ∧
    ((name == "screenshot") = true → ∀ m, shr = .error m →
      handlerCore name fmt sr shr = .error m) ∧
    ((name == "scrape") = false → (name == "screenshot") = false →
      handlerCore name fmt sr shr = .error ("Unknown tool: " ++ name)) ∧
    ((handleCallTool name fmt sr shr).isError = true →
      ∃ e, handlerCore name fmt sr shr = .error e) ∧
    (∀ e, swpHandlerCore name fmt sr shu = .error e →
      swpHandleCallTool name fmt sr shu = ⟨[], true⟩) ∧
    ((name == "scrape") = true → ∀ m, sr = .error m →
      swpHandlerCore name fmt sr shu = .error m) ∧
    ((name == "scrape") = false → (name == "screenshot") = false →
      swpHandlerCore name fmt sr shu = .ok ⟨[⟨"text", none, none⟩], false⟩) ∧
    ((swpHandleCallTool name fmt sr shu).isError = true →
      ∃ e, swpHandlerCore name fmt sr shu = .error e) := by
  refine ⟨fun e he => ?_, fun hn m hm => ?_, fun hn m hm => ?_,
    fun hn1 hn2 => ?_, fun hE => ?_, fun e he => ?_, fun hn m hm => ?_,
    fun hn1 hn2 => ?_, fun hE => ?_⟩
  · unfold handleCallTool
    rw [he]
  · unfold handlerCore
    rw [hm]
    simp [hn]
  · have hname : name = "screenshot" := eq_of_beq hn
    subst hname
    unfold handlerCore
    rw [hm]
    simp
  · unfold handlerCore
    simp [hn1, hn2]
  · unfold handleCallTool at hE
    cases hc : handlerCore name fmt sr shr with
    | error e => exact ⟨e, rfl⟩
    | ok res =>
      rw [hc] at hE
      simp only at hE
      rw [handlerCore_ok_flag hc] at hE
      exact absurd hE (by simp)
  · unfold swpHandleCallTool
    rw [he]
  · unfold swpHandlerCore
    rw [hm]
    simp [hn]
  · unfold swpHandlerCore
    simp [hn1, hn2]
  · unfold swpHandleCallTool at hE
    cases hc : swpHandlerCore name fmt sr shu with
    | error e => exact ⟨e, rfl⟩
    | ok res =>
      rw [hc] at hE
      simp only at hE
      rw [swpHandlerCore_ok_flag hc] at hE
      exact absurd hE (by simp)

/-- C9 witness: the amended theorem applied, for the src/server handler, to
an unknown tool name (tagged error result carrying the text), and, for the
part_000 handler, to a scrape call whose remote interaction threw "boom"
(tagged error result with empty content). -/
theorem c9_amended_witness :
    handleCallTool "weird" "markdown" (.ok emptyResponse) (.ok []) =
      errResult "Unknown tool: weird" ∧
    swpHandleCallTool "scrape" "markdown" (.error "boom") (.ok ()) = ⟨[], true⟩ :=
  ⟨(c9_amended "weird" "markdown" (.ok emptyResponse) (.ok []) (.ok ())).1
      "Unknown tool: weird" (by rfl),
    (c9_amended "scrape" "markdown" (.error "boom") (.ok []) (.ok ())).2.2.2.2.2.1
      "boom" (by rfl)⟩

/-! ## Claim C10 -/

/-- C10: the behaviour of `ScraperAPI.scrape` is independent of its `format`
argument — for the same prompt, chat id and remote responses, two calls with
different formats produce identical runs (the same submit request, which by
construction of `SubmitRequest` carries no format field, the same poll
requests and progress trace, and equal payload outcomes), the submit body is
exactly `{ prompt, chat_id, html_only: false }`, and every poll request asks
for `format=quick`. -/
theorem c10_format_independent (prompt f1 f2 chatId : String)
    (submit : ScraperResponse) (polls : List ScraperResponse) :
    scrape prompt f1 chatId submit polls = scrape prompt f2 chatId submit polls ∧
    (scrape prompt f1 chatId submit polls).submitReq = ⟨prompt, chatId, false⟩ ∧
    ((scrape prompt f1 chatId submit polls).pollReqs.all
      fun q => q.format == "quick") = true := by
  refine ⟨rfl, ?_, ?_⟩
  · unfold scrape
    by_cases h : strTruthy submit.job_id = true
    · simp [h]
    · simp [Bool.of_not_eq_true h]
  · unfold scrape
    by_cases h : strTruthy submit.job_id = true
    · simp only [h, Bool.not_true, Bool.false_eq_true, if_false]
      exact replicate_all_quick _ chatId
    · simp [Bool.of_not_eq_true h]
